import Mathlib

/-!
Verification of the Aptos Rosetta construction client and its error taxonomy.

Shallow embedding of:
  * `crates/aptos-rosetta/src/error.rs`   (the `ApiError` taxonomy),
  * `api/types/src/error.rs`              (the remote `AptosErrorCode` enum),
  * `crates/aptos-rosetta/src/client.rs`  (the construction orchestrator).

Remote HTTP calls are modelled as oracle functions `request → Except String
response`; a call the code never reaches is a parameter the result does not
depend on.  Rust `?`-propagated errors become `Except.error` / `Outcome.err`,
while `.expect` and `assert_eq!` panics become `Outcome.panic`.
-/

namespace AptosRosetta

/-! ## Remote error codes (`api/types/src/error.rs`) -/

/-- The remote node's error classification (`AptosErrorCode`). -/
inductive AptosErrorCode where
  | AccountNotFound
  | ResourceNotFound
  | ModuleNotFound
  | StructFieldNotFound
  | VersionNotFound
  | TransactionNotFound
  | TableItemNotFound
  | BlockNotFound
  | VersionPruned
  | BlockPruned
  | InvalidInput
  | InvalidTransactionUpdate
  | SequenceNumberTooOld
  | VmError
  | HealthCheckFailed
  | MempoolIsFull
  | InternalError
  | WebFrameworkError
  | BcsNotSupported
  | ApiDisabled
deriving DecidableEq

/-- The numeric discriminants assigned in the Rust enum (`#[repr(u32)]`). -/
def AptosErrorCode.as_u32 : AptosErrorCode → Nat
  | .AccountNotFound => 101
  | .ResourceNotFound => 102
  | .ModuleNotFound => 103
  | .StructFieldNotFound => 104
  | .VersionNotFound => 105
  | .TransactionNotFound => 106
  | .TableItemNotFound => 107
  | .BlockNotFound => 108
  | .VersionPruned => 200
  | .BlockPruned => 201
  | .InvalidInput => 300
  | .InvalidTransactionUpdate => 401
  | .SequenceNumberTooOld => 402
  | .VmError => 403
  | .HealthCheckFailed => 500
  | .MempoolIsFull => 501
  | .InternalError => 600
  | .WebFrameworkError => 601
  | .BcsNotSupported => 602
  | .ApiDisabled => 603

/-- The generic remote error body (`AptosError`). -/
structure AptosError where
  message : String
  error_code : AptosErrorCode
  vm_error_code : Option Nat
deriving DecidableEq

/-- The REST client's error type (`RestError`).  Payloads of the non-`Api`
variants are modelled by the message string the code extracts from them. -/
inductive RestError where
  | Api (err : AptosError)
  | Bcs (msg : String)
  | Json (msg : String)
  | WebClient (msg : String)
  | UrlParse (msg : String)
  | Timeout (msg : String)
  | Unknown (msg : String)
deriving DecidableEq

/-! ## Local error taxonomy (`crates/aptos-rosetta/src/error.rs`) -/

/-- The Rosetta server's error taxonomy (`ApiError`). -/
inductive ApiError where
  | BlockParameterConflict
  | TransactionIsPending
  | NetworkIdentifierMismatch
  | ChainIdMismatch
  | DeserializationFailed (inner : Option String)
  | InvalidTransferOperations (inner : Option String)
  | InvalidSignatureType
  | InvalidMaxGasFees
  | InvalidGasMultiplier
  | InvalidOperations
  | MissingPayloadMetadata
  | UnsupportedCurrency (inner : Option String)
  | UnsupportedSignatureCount (inner : Option Nat)
  | NodeIsOffline
  | TransactionParseError (inner : Option String)
  | InternalError (inner : Option String)
  | AccountNotFound (inner : Option String)
  | ResourceNotFound (inner : Option String)
  | ModuleNotFound (inner : Option String)
  | StructFieldNotFound (inner : Option String)
  | VersionNotFound (inner : Option String)
  | TransactionNotFound (inner : Option String)
  | TableItemNotFound (inner : Option String)
  | BlockNotFound (inner : Option String)
  | VersionPruned (inner : Option String)
  | BlockPruned (inner : Option String)
  | InvalidInput (inner : Option String)
  | InvalidTransactionUpdate (inner : Option String)
  | SequenceNumberTooOld (inner : Option String)
  | VmError (inner : Option String)
  | MempoolIsFull (inner : Option String)
deriving DecidableEq

/-- `ApiError::all`, the total enumeration, in source order. -/
def ApiError.all : List ApiError :=
  [ .BlockParameterConflict,
    .TransactionIsPending,
    .NetworkIdentifierMismatch,
    .ChainIdMismatch,
    .DeserializationFailed none,
    .InvalidTransferOperations none,
    .InvalidSignatureType,
    .InvalidMaxGasFees,
    .InvalidGasMultiplier,
    .InvalidOperations,
    .MissingPayloadMetadata,
    .UnsupportedCurrency none,
    .UnsupportedSignatureCount none,
    .NodeIsOffline,
    .TransactionParseError none,
    .InternalError none,
    .AccountNotFound none,
    .ResourceNotFound none,
    .ModuleNotFound none,
    .StructFieldNotFound none,
    .VersionNotFound none,
    .TransactionNotFound none,
    .TableItemNotFound none,
    .BlockNotFound none,
    .VersionPruned none,
    .BlockPruned none,
    .InvalidInput none,
    .InvalidTransactionUpdate none,
    .SequenceNumberTooOld none,
    .VmError none,
    .MempoolIsFull none ]

/-- `ApiError::code`. -/
def ApiError.code : ApiError → Nat
  | .BlockParameterConflict => 0
  | .TransactionIsPending => 1
  | .NetworkIdentifierMismatch => 2
  | .ChainIdMismatch => 3
  | .DeserializationFailed _ => 4
  | .InvalidTransferOperations _ => 5
  | .InvalidSignatureType => 6
  | .InvalidMaxGasFees => 7
  | .InvalidGasMultiplier => 8
  | .InvalidOperations => 9
  | .MissingPayloadMetadata => 10
  | .UnsupportedCurrency _ => 11
  | .UnsupportedSignatureCount _ => 12
  | .NodeIsOffline => 13
  | .TransactionParseError _ => 14
  | .InternalError _ => AptosErrorCode.InternalError.as_u32
  | .AccountNotFound _ => AptosErrorCode.AccountNotFound.as_u32
  | .ResourceNotFound _ => AptosErrorCode.ResourceNotFound.as_u32
  | .ModuleNotFound _ => AptosErrorCode.ModuleNotFound.as_u32
  | .StructFieldNotFound _ => AptosErrorCode.StructFieldNotFound.as_u32
  | .VersionNotFound _ => AptosErrorCode.VersionNotFound.as_u32
  | .TransactionNotFound _ => AptosErrorCode.TransactionNotFound.as_u32
  | .TableItemNotFound _ => AptosErrorCode.TableItemNotFound.as_u32
  | .BlockNotFound _ => AptosErrorCode.BlockNotFound.as_u32
  | .VersionPruned _ => AptosErrorCode.VersionPruned.as_u32
  | .BlockPruned _ => AptosErrorCode.BlockPruned.as_u32
  | .InvalidInput _ => AptosErrorCode.InvalidInput.as_u32
  | .InvalidTransactionUpdate _ => AptosErrorCode.InvalidTransactionUpdate.as_u32
  | .SequenceNumberTooOld _ => AptosErrorCode.SequenceNumberTooOld.as_u32
  | .VmError _ => AptosErrorCode.VmError.as_u32
  | .MempoolIsFull _ => AptosErrorCode.MempoolIsFull.as_u32

/-- `ApiError::retriable`. -/
def ApiError.retriable : ApiError → Bool
  | .AccountNotFound _ => true
  | .BlockNotFound _ => true
  | .MempoolIsFull _ => true
  | _ => false

/-- `ApiError::status_code`; HTTP status codes are embedded as their numbers. -/
def ApiError.status_code : ApiError → Nat
  | .AccountNotFound _ => 404
  | .BlockNotFound _ => 404
  | .ResourceNotFound _ => 404
  | .ModuleNotFound _ => 404
  | .VersionNotFound _ => 404
  | .TransactionNotFound _ => 404
  | .StructFieldNotFound _ => 404
  | .TableItemNotFound _ => 404
  | .MempoolIsFull _ => 507
  | .BlockPruned _ => 410
  | .VersionPruned _ => 410
  | .NodeIsOffline => 405
  | _ => 400

/-- `ApiError::message`, the fixed default text per kind. -/
def ApiError.message : ApiError → String
  | .BlockParameterConflict =>
      "Block parameter conflict. Must provide either hash or index but not both"
  | .TransactionIsPending => "Transaction is pending"
  | .NetworkIdentifierMismatch => "Network identifier doesn\x27t match"
  | .ChainIdMismatch => "Chain Id doesn\x27t match"
  | .DeserializationFailed _ => "Deserialization failed"
  | .InvalidTransferOperations _ => "Invalid operations for a transfer"
  | .AccountNotFound _ => "Account not found"
  | .InvalidSignatureType => "Invalid signature type"
  | .InvalidMaxGasFees => "Invalid max gas fee"
  | .InvalidGasMultiplier => "Invalid gas multiplier"
  | .InvalidOperations => "Invalid operations"
  | .MissingPayloadMetadata => "Payload metadata is missing"
  | .UnsupportedCurrency _ => "Currency is unsupported"
  | .UnsupportedSignatureCount _ => "Number of signatures is not supported"
  | .NodeIsOffline => "This API is unavailable for the node because he\x27s offline"
  | .BlockNotFound _ => "Block is missing events"
  | .TransactionParseError _ => "Transaction failed to parse"
  | .InternalError _ => "Internal error"
  | .ResourceNotFound _ => "Resource not found"
  | .ModuleNotFound _ => "Module not found"
  | .StructFieldNotFound _ => "Struct field not found"
  | .VersionNotFound _ => "Version not found"
  | .TransactionNotFound _ => "Transaction not found"
  | .TableItemNotFound _ => "Table item not found"
  | .VersionPruned _ => "Version pruned"
  | .BlockPruned _ => "Block pruned"
  | .InvalidInput _ => "Invalid input"
  | .InvalidTransactionUpdate _ => "Invalid transaction update.  Can only update gas unit price"
  | .SequenceNumberTooOld _ =>
      "Sequence number too old.  Please create a new transaction with an updated sequence number"
  | .VmError _ => "Transaction submission failed due to VM error"
  | .MempoolIsFull _ => "Mempool is full all accounts"

/-- `ErrorDetails` (the free-text detail wrapper in `types`). -/
structure ErrorDetails where
  details : String
deriving DecidableEq

/-- `ApiError::details`. -/
def ApiError.details (e : ApiError) : Option ErrorDetails :=
  (match e with
   | .DeserializationFailed inner => inner
   | .InvalidTransferOperations inner => inner
   | .UnsupportedCurrency inner => inner
   | .UnsupportedSignatureCount inner => inner.map toString
   | .TransactionParseError inner => inner
   | .InternalError inner => inner
   | .AccountNotFound inner => inner
   | .ResourceNotFound inner => inner
   | .ModuleNotFound inner => inner
   | .StructFieldNotFound inner => inner
   | .VersionNotFound inner => inner
   | .TransactionNotFound inner => inner
   | .TableItemNotFound inner => inner
   | .BlockNotFound inner => inner
   | .VersionPruned inner => inner
   | .BlockPruned inner => inner
   | .InvalidInput inner => inner
   | .InvalidTransactionUpdate inner => inner
   | .SequenceNumberTooOld inner => inner
   | .VmError inner => inner
   | .MempoolIsFull inner => inner
   | _ => none).map (fun details => { details })

/-- The externally serialized error (`types::Error`). -/
structure Error where
  message : String
  code : Nat
  retriable : Bool
  details : Option ErrorDetails
  description : Option String
deriving DecidableEq

/-- `impl From<ApiError> for types::Error`. -/
def Error.fromApiError (error : ApiError) : Error :=
  { message := error.message
    code := error.code
    retriable := error.retriable
    details := error.details
    description := none }

/-- `impl From<RestError> for ApiError`. -/
def ApiError.fromRestError : RestError → ApiError
  | .Api err =>
    match err.error_code with
    | .AccountNotFound => .AccountNotFound (some err.message)
    | .ResourceNotFound => .ResourceNotFound (some err.message)
    | .ModuleNotFound => .ModuleNotFound (some err.message)
    | .StructFieldNotFound => .StructFieldNotFound (some err.message)
    | .VersionNotFound => .VersionNotFound (some err.message)
    | .TransactionNotFound => .TransactionNotFound (some err.message)
    | .TableItemNotFound => .TableItemNotFound (some err.message)
    | .BlockNotFound => .BlockNotFound (some err.message)
    | .VersionPruned => .VersionPruned (some err.message)
    | .BlockPruned => .BlockPruned (some err.message)
    | .InvalidInput => .InvalidInput (some err.message)
    | .InvalidTransactionUpdate => .InvalidInput (some err.message)
    | .SequenceNumberTooOld => .SequenceNumberTooOld (some err.message)
    | .VmError => .VmError (some err.message)
    | .HealthCheckFailed => .InternalError (some err.message)
    | .MempoolIsFull => .MempoolIsFull (some err.message)
    | .WebFrameworkError => .InternalError (some err.message)
    | .BcsNotSupported => .InvalidInput (some err.message)
    | .InternalError => .InternalError (some err.message)
    | .ApiDisabled => .InternalError (some err.message)
  | .Bcs _ => .DeserializationFailed none
  | .Json _ => .DeserializationFailed none
  | .WebClient msg => .InternalError (some msg)
  | .UrlParse msg => .InternalError (some msg)
  | .Timeout msg => .InternalError (some msg)
  | .Unknown msg => .InternalError (some msg)

/-- Replaces a kind's optional detail payload by `none`, keeping the kind.
Used to state that a projection depends only on the kind. -/
def ApiError.stripDetail : ApiError → ApiError
  | .DeserializationFailed _ => .DeserializationFailed none
  | .InvalidTransferOperations _ => .InvalidTransferOperations none
  | .UnsupportedCurrency _ => .UnsupportedCurrency none
  | .UnsupportedSignatureCount _ => .UnsupportedSignatureCount none
  | .TransactionParseError _ => .TransactionParseError none
  | .InternalError _ => .InternalError none
  | .AccountNotFound _ => .AccountNotFound none
  | .ResourceNotFound _ => .ResourceNotFound none
  | .ModuleNotFound _ => .ModuleNotFound none
  | .StructFieldNotFound _ => .StructFieldNotFound none
  | .VersionNotFound _ => .VersionNotFound none
  | .TransactionNotFound _ => .TransactionNotFound none
  | .TableItemNotFound _ => .TableItemNotFound none
  | .BlockNotFound _ => .BlockNotFound none
  | .VersionPruned _ => .VersionPruned none
  | .BlockPruned _ => .BlockPruned none
  | .InvalidInput _ => .InvalidInput none
  | .InvalidTransactionUpdate _ => .InvalidTransactionUpdate none
  | .SequenceNumberTooOld _ => .SequenceNumberTooOld none
  | .VmError _ => .VmError none
  | .MempoolIsFull _ => .MempoolIsFull none
  | e => e

/-- The remote-to-local kind mapping as the amended claim describes it:
each remote code maps to exactly one local kind carrying the remote message
as detail; the kind has the same name except that `InvalidTransactionUpdate`
and `BcsNotSupported` map to `InvalidInput`, and `HealthCheckFailed`,
`WebFrameworkError` and `ApiDisabled` map to `InternalError`.  Stated
separately from `ApiError.fromRestError` so the two can be compared. -/
def specRemoteKindMap (code : AptosErrorCode) (msg : String) : ApiError :=
  match code with
  | .AccountNotFound => .AccountNotFound (some msg)
  | .ResourceNotFound => .ResourceNotFound (some msg)
  | .ModuleNotFound => .ModuleNotFound (some msg)
  | .StructFieldNotFound => .StructFieldNotFound (some msg)
  | .VersionNotFound => .VersionNotFound (some msg)
  | .TransactionNotFound => .TransactionNotFound (some msg)
  | .TableItemNotFound => .TableItemNotFound (some msg)
  | .BlockNotFound => .BlockNotFound (some msg)
  | .VersionPruned => .VersionPruned (some msg)
  | .BlockPruned => .BlockPruned (some msg)
  | .InvalidInput => .InvalidInput (some msg)
  | .SequenceNumberTooOld => .SequenceNumberTooOld (some msg)
  | .VmError => .VmError (some msg)
  | .MempoolIsFull => .MempoolIsFull (some msg)
  | .InternalError => .InternalError (some msg)
  | .InvalidTransactionUpdate => .InvalidInput (some msg)
  | .BcsNotSupported => .InvalidInput (some msg)
  | .HealthCheckFailed => .InternalError (some msg)
  | .WebFrameworkError => .InternalError (some msg)
  | .ApiDisabled => .InternalError (some msg)

/-! ## Construction orchestrator (`crates/aptos-rosetta/src/client.rs`)

Wire objects the orchestrator only threads through (network selector,
metadata blob, signed/unsigned transaction blobs) are modelled as strings;
addresses are modelled by their canonical string; bytes by `Nat` (0..255
is not load-bearing for any claim); the decoded `RawTransaction`, the BCS
decoder, the signing-message derivation and the signing primitive are
opaque per the spec and appear as parameters of the embedded functions. -/

/-- Hex decoding as in the `hex` crate: fails on odd length or a non-hex
character, otherwise one byte per digit pair. -/
def hexDigitVal (c : Char) : Option Nat :=
  if 48 ≤ c.toNat ∧ c.toNat ≤ 57 then some (c.toNat - 48)
  else if 97 ≤ c.toNat ∧ c.toNat ≤ 102 then some (c.toNat - 87)
  else if 65 ≤ c.toNat ∧ c.toNat ≤ 70 then some (c.toNat - 55)
  else none

/-- Hex decoding over the character list of a string. -/
def hexDecodeList : List Char → Except String (List Nat)
  | [] => .ok []
  | [_] => .error "Odd number of digits"
  | c1 :: c2 :: rest =>
    match hexDigitVal c1, hexDigitVal c2 with
    | some hi, some lo => (hexDecodeList rest).map (fun bs => (16 * hi + lo) :: bs)
    | _, _ => .error "Invalid character"

/-- `hex::decode`. -/
def hexDecode (s : String) : Except String (List Nat) :=
  hexDecodeList s.data

/-- Lower-case hex digit of a value below 16. -/
def hexDigitChar (n : Nat) : Char :=
  if n < 10 then Char.ofNat (48 + n) else Char.ofNat (87 + n)

/-- `hex::encode`, two lower-case digits per byte. -/
def hexEncode (bs : List Nat) : String :=
  ⟨(bs.map (fun b => [hexDigitChar (b / 16 % 16), hexDigitChar (b % 16)])).flatten⟩

/-- Opaque network selector, passed through unchanged. -/
abbrev NetworkIdentifier := String

/-- Addresses are modelled by their canonical string form. -/
abbrev AccountAddress := String

/-- Borrowed signing-key reference, opaque to the orchestrator. -/
abbrev Ed25519PrivateKey := Nat

/-- Rosetta public key, opaque to the orchestrator. -/
abbrev PublicKey := Nat

/-- Opaque decoded transaction (`RawTransaction`); only compared and signed. -/
abbrev RawTransaction := List Nat

/-- Opaque construction metadata blob, threaded unmodified. -/
abbrev ConstructionMetadata := String

/-- Modelled from the spec: an `AccountIdentifier` is an address plus an
optional sub-identifier (the struct lives in `types/`, outside `src/`). -/
structure AccountIdentifier where
  address : AccountAddress
  sub_account : Option String
deriving DecidableEq

/-- Modelled from the spec: `account_address` extracts the carried address.
In the source it re-parses the address string; parsing of an address the
client itself produced is modelled as the identity. -/
def AccountIdentifier.account_address (a : AccountIdentifier) : AccountAddress :=
  a.address

/-- Modelled from the spec: the native currency (`common::native_coin`,
outside `src/`); an opaque currency tag. -/
def native_coin : String :=
  "APT"

/-- Modelled from the spec: a signed decimal amount in a currency. -/
structure Amount where
  value : String
  currency : String
deriving DecidableEq

/-- `val_to_amount` (bottom of `client.rs`). -/
def val_to_amount (amount : Nat) (withdraw : Bool) : Amount :=
  { value := if withdraw then "-" ++ toString amount else toString amount
    currency := native_coin }

/-- Modelled from the spec: the three operation types of the model. -/
inductive OperationType where
  | CreateAccount
  | Withdraw
  | Deposit
deriving DecidableEq

/-- Modelled from the spec: one balance-affecting operation with a stable
index (the struct lives in `types/`, outside `src/`); claims use it only
up to structural equality. -/
structure Operation where
  op_index : Nat
  related_operations : Option (List Nat)
  operation_type : OperationType
  account : Option AccountIdentifier
  amount : Option Amount
deriving DecidableEq

/-- Modelled from the spec: a node-supplied signing payload carrying the
account expected to sign and the exact message bytes to sign (hex). -/
structure SigningPayload where
  account_identifier : Option AccountIdentifier
  hex_bytes : String
deriving DecidableEq

/-- Rosetta signature types; the client always uses Ed25519. -/
inductive SignatureType where
  | Ed25519
deriving DecidableEq

/-- A produced signature (`types::Signature`). -/
structure Signature where
  signing_payload : SigningPayload
  public_key : PublicKey
  signature_type : SignatureType
  hex_bytes : String
deriving DecidableEq

/-- Optional expiry/sequence metadata sent to preprocess. -/
structure PreprocessMetadata where
  expiry_time_secs : Option Nat
  sequence_number : Option Nat
deriving DecidableEq

/-- `ConstructionPreprocessRequest`. -/
structure ConstructionPreprocessRequest where
  network_identifier : NetworkIdentifier
  operations : List Operation
  max_fee : Option (List Amount)
  suggested_fee_multiplier : Option Nat
  metadata : Option PreprocessMetadata
deriving DecidableEq

/-- `ConstructionPreprocessResponse`; the options blob is opaque. -/
structure ConstructionPreprocessResponse where
  options : Option String
  required_public_keys : Option (List AccountIdentifier)
deriving DecidableEq

/-- `ConstructionMetadataRequest`. -/
structure ConstructionMetadataRequest where
  network_identifier : NetworkIdentifier
  options : String
  public_keys : List PublicKey
deriving DecidableEq

/-- `ConstructionMetadataResponse`. -/
structure ConstructionMetadataResponse where
  metadata : ConstructionMetadata
deriving DecidableEq

/-- `ConstructionPayloadsRequest`. -/
structure ConstructionPayloadsRequest where
  network_identifier : NetworkIdentifier
  operations : List Operation
  metadata : Option ConstructionMetadata
  public_keys : Option (List PublicKey)
deriving DecidableEq

/-- `ConstructionPayloadsResponse`: the unsigned transaction blob (hex) and
one signing payload per required signer. -/
structure ConstructionPayloadsResponse where
  unsigned_transaction : String
  payloads : List SigningPayload
deriving DecidableEq

/-- `ConstructionParseRequest`. -/
structure ConstructionParseRequest where
  network_identifier : NetworkIdentifier
  signed : Bool
  transaction : String
deriving DecidableEq

/-- `ConstructionParseResponse`. -/
structure ConstructionParseResponse where
  operations : List Operation
  account_identifier_signers : Option (List AccountIdentifier)
deriving DecidableEq

/-- `ConstructionCombineRequest`. -/
structure ConstructionCombineRequest where
  network_identifier : NetworkIdentifier
  unsigned_transaction : String
  signatures : List Signature
deriving DecidableEq

/-- `ConstructionCombineResponse`. -/
structure ConstructionCombineResponse where
  signed_transaction : String
deriving DecidableEq

/-- Result of an embedded orchestrator step: `ok`, a `?`-propagated error
value (`err`), or a Rust panic from `.expect` / `assert_eq!` (`panic`). -/
inductive Outcome (α : Type) where
  | ok (a : α)
  | err (msg : String)
  | panic (msg : String)
deriving DecidableEq

/-- The key-resolution loop of `metadata_for_ops`: one public key per
required signer, in order; fails at the first account that has no key in
the caller-supplied map. -/
def resolveRequiredKeys (keys : AccountAddress → Option Ed25519PrivateKey)
    (pubKeyOf : Ed25519PrivateKey → PublicKey) :
    List AccountIdentifier → Except String (List PublicKey)
  | [] => .ok []
  | account :: rest =>
    match keys account.account_address with
    | some key => (resolveRequiredKeys keys pubKeyOf rest).map (fun ks => pubKeyOf key :: ks)
    | none => .error "No public key found for account"

/-- `RosettaClient::metadata_for_ops`.  The preprocess and metadata
endpoints are oracle parameters; `pubKeyOf` is the opaque
`private_key.public_key()` capability. -/
def metadata_for_ops
    (preprocessCall : ConstructionPreprocessRequest → Except String ConstructionPreprocessResponse)
    (metadataCall : ConstructionMetadataRequest → Except String ConstructionMetadataResponse)
    (pubKeyOf : Ed25519PrivateKey → PublicKey)
    (network_identifier : NetworkIdentifier)
    (operations : List Operation)
    (max_fee : Nat)
    (fee_multiplier : Nat)
    (expiry_time_secs : Nat)
    (sequence_number : Option Nat)
    (keys : AccountAddress → Option Ed25519PrivateKey) :
    Except String (ConstructionMetadataResponse × List PublicKey) :=
  match preprocessCall
      { network_identifier
        operations
        max_fee := some [val_to_amount max_fee false]
        suggested_fee_multiplier := some fee_multiplier
        metadata := some { expiry_time_secs := some expiry_time_secs, sequence_number } } with
  | .error e => .error e
  | .ok preprocess_response =>
    match preprocess_response.required_public_keys with
    | some accounts =>
      match resolveRequiredKeys keys pubKeyOf accounts with
      | .error e => .error e
      | .ok public_keys =>
        match preprocess_response.options with
        | some options =>
          (metadataCall { network_identifier, options, public_keys }).map
            (fun response => (response, public_keys))
        | none => .error "No metadata options returned from preprocess response"
    | none => .error "No public keys found required for transaction"

/-- `RosettaClient::unsigned_transaction`: calls payloads, then re-parses
the unsigned blob with `signed := false` and checks that no signers are
exposed and the operations round-tripped unchanged. -/
def unsigned_transaction
    (payloadsCall : ConstructionPayloadsRequest → Except String ConstructionPayloadsResponse)
    (parseCall : ConstructionParseRequest → Except String ConstructionParseResponse)
    (network_identifier : NetworkIdentifier)
    (operations : List Operation)
    (metadata : ConstructionMetadata)
    (public_keys : List PublicKey) :
    Except String ConstructionPayloadsResponse :=
  match payloadsCall
      { network_identifier
        operations
        metadata := some metadata
        public_keys := some public_keys } with
  | .error e => .error e
  | .ok payloads =>
    match parseCall
        { network_identifier
          signed := false
          transaction := payloads.unsigned_transaction } with
    | .error e => .error e
    | .ok response =>
      if response.account_identifier_signers.isSome then
        .error "Signers were in the unsigned transaction!"
      else if operations ≠ response.operations then
        .error "Operations were not parsed to be the same as input!"
      else .ok payloads

/-- The signing loop of `RosettaClient::sign_transaction`: per payload,
`.expect` the account, `.expect` the private key, record the signer,
`assert_eq!` the payload's message against the derived signing message,
then sign.  `.expect` / `assert_eq!` failures are panics, not errors. -/
def signTransactionLoop
    (keys : AccountAddress → Option Ed25519PrivateKey)
    (sign : Ed25519PrivateKey → RawTransaction → String)
    (pubKeyOf : Ed25519PrivateKey → PublicKey)
    (unsigned_txn : RawTransaction)
    (signing_message : String) :
    List SigningPayload → Outcome (List Signature × List AccountIdentifier)
  | [] => .ok ([], [])
  | payload :: rest =>
    match payload.account_identifier with
    | none => .panic "Must have an account"
    | some account =>
      match keys account.account_address with
      | none => .panic "Should have a private key"
      | some private_key =>
        if signing_message = payload.hex_bytes then
          match signTransactionLoop keys sign pubKeyOf unsigned_txn signing_message rest with
          | .ok (sigs, sgns) =>
            .ok ({ signing_payload := payload
                   public_key := pubKeyOf private_key
                   signature_type := SignatureType.Ed25519
                   hex_bytes := sign private_key unsigned_txn } :: sigs,
                 account :: sgns)
          | .err m => .err m
          | .panic m => .panic m
        else .panic "assertion failed: signing_message == payload.hex_bytes"

/-- `RosettaClient::sign_transaction`.  `bcsDecode` is the opaque BCS
decoder of the unsigned blob, `signingMessageOf` the opaque signing-message
derivation, `sign` the opaque signing capability; combine and parse are
endpoint oracles. -/
def sign_transaction
    (bcsDecode : List Nat → Except String RawTransaction)
    (signingMessageOf : RawTransaction → List Nat)
    (sign : Ed25519PrivateKey → RawTransaction → String)
    (pubKeyOf : Ed25519PrivateKey → PublicKey)
    (combineCall : ConstructionCombineRequest → Except String ConstructionCombineResponse)
    (parseCall : ConstructionParseRequest → Except String ConstructionParseResponse)
    (network_identifier : NetworkIdentifier)
    (keys : AccountAddress → Option Ed25519PrivateKey)
    (unsigned_response : ConstructionPayloadsResponse)
    (operations : List Operation) :
    Outcome String :=
  match hexDecode unsigned_response.unsigned_transaction with
  | .error e => .err e
  | .ok bytes =>
    match bcsDecode bytes with
    | .error e => .err e
    | .ok unsigned_txn =>
      let signing_message := hexEncode (signingMessageOf unsigned_txn)
      match signTransactionLoop keys sign pubKeyOf unsigned_txn signing_message
          unsigned_response.payloads with
      | .panic m => .panic m
      | .err m => .err m
      | .ok (signatures, signers) =>
        match combineCall
            { network_identifier
              unsigned_transaction := unsigned_response.unsigned_transaction
              signatures } with
        | .error e => .err e
        | .ok signed_response =>
          match parseCall
              { network_identifier
                signed := true
                transaction := signed_response.signed_transaction } with
          | .error e => .err e
          | .ok response =>
            match response.account_identifier_signers with
            | some parsed_signers =>
              if signers ≠ parsed_signers then
                .err "Signers don\x27t match"
              else if operations ≠ response.operations then
                .err "Operations were not parsed to be the same as input!"
              else .ok signed_response.signed_transaction
            | none => .err "Signers were in the unsigned transaction!"

/-- A signing payload on which the loop of `sign_transaction` panics:
no account, no key for the account, or message bytes differing from the
derived signing message. -/
def offendingPayload (keys : AccountAddress → Option Ed25519PrivateKey)
    (signing_message : String) (p : SigningPayload) : Prop :=
  p.account_identifier = none
  ∨ (∃ a, p.account_identifier = some a ∧ keys a.account_address = none)
  ∨ p.hex_bytes ≠ signing_message

/-! ## Theorems -/

/-- C5 (counterexample): the remote-to-local error mapping is not always to
the kind of the same name: remote `InvalidTransactionUpdate` is converted to
local `InvalidInput`, which differs from the same-named local kind
`InvalidTransactionUpdate`. -/
theorem fromRestError_not_same_named_kind :
    ApiError.fromRestError (RestError.Api
        { message := "msg"
          error_code := AptosErrorCode.InvalidTransactionUpdate
          vm_error_code := none })
      = ApiError.InvalidInput (some "msg")
    ∧ ApiError.InvalidInput (some "msg") ≠ ApiError.InvalidTransactionUpdate (some "msg") :=
  ⟨rfl, by decide⟩

/-- C5 (amended): a remote API error is mapped deterministically, one local
kind per remote code, carrying the remote message as the detail; the local
kind has the same name as the remote code except that
`InvalidTransactionUpdate` and `BcsNotSupported` map to `InvalidInput`, and
`HealthCheckFailed`, `WebFrameworkError` and `ApiDisabled` map to
`InternalError`. -/
theorem fromRestError_api_mapping (msg : String) (code : AptosErrorCode) (vm : Option Nat) :
    ApiError.fromRestError (RestError.Api { message := msg, error_code := code, vm_error_code := vm })
      = specRemoteKindMap code msg
    ∧ (ApiError.fromRestError
        (RestError.Api { message := msg, error_code := code, vm_error_code := vm })).details
      = some { details := msg } := by
  cases code <;> exact ⟨rfl, rfl⟩

/-- C6: exactly the kinds `AccountNotFound`, `BlockNotFound` and
`MempoolIsFull` are retriable, whatever the optional detail payload; every
other kind is terminal. -/
theorem retriable_exactly_three :
    (∀ s, (ApiError.AccountNotFound s).retriable = true)
    ∧ (∀ s, (ApiError.BlockNotFound s).retriable = true)
    ∧ (∀ s, (ApiError.MempoolIsFull s).retriable = true)
    ∧ (∀ e : ApiError, e.retriable = true →
        (∃ s, e = ApiError.AccountNotFound s) ∨ (∃ s, e = ApiError.BlockNotFound s)
          ∨ (∃ s, e = ApiError.MempoolIsFull s)) := by
  refine ⟨fun _ => rfl, fun _ => rfl, fun _ => rfl, fun e h => ?_⟩
  cases e <;>
    first
      | exact Or.inl ⟨_, rfl⟩
      | exact Or.inr (Or.inl ⟨_, rfl⟩)
      | exact Or.inr (Or.inr ⟨_, rfl⟩)
      | simp [ApiError.retriable] at h

/-- C7: `status_code` follows the classification policy — the eight
not-found kinds map to 404, `MempoolIsFull` to 507, the two pruned kinds to
410, `NodeIsOffline` to 405, and every remaining kind to 400 — and the
result depends only on the kind, never on the detail payload. -/
theorem status_code_classification :
    (∀ s, (ApiError.AccountNotFound s).status_code = 404)
    ∧ (∀ s, (ApiError.BlockNotFound s).status_code = 404)
    ∧ (∀ s, (ApiError.ModuleNotFound s).status_code = 404)
    ∧ (∀ s, (ApiError.ResourceNotFound s).status_code = 404)
    ∧ (∀ s, (ApiError.VersionNotFound s).status_code = 404)
    ∧ (∀ s, (ApiError.TransactionNotFound s).status_code = 404)
    ∧ (∀ s, (ApiError.StructFieldNotFound s).status_code = 404)
    ∧ (∀ s, (ApiError.TableItemNotFound s).status_code = 404)
    ∧ (∀ s, (ApiError.MempoolIsFull s).status_code = 507)
    ∧ (∀ s, (ApiError.VersionPruned s).status_code = 410)
    ∧ (∀ s, (ApiError.BlockPruned s).status_code = 410)
    ∧ ApiError.NodeIsOffline.status_code = 405
    ∧ ApiError.BlockParameterConflict.status_code = 400
    ∧ ApiError.TransactionIsPending.status_code = 400
    ∧ ApiError.NetworkIdentifierMismatch.status_code = 400
    ∧ ApiError.ChainIdMismatch.status_code = 400
    ∧ (∀ s, (ApiError.DeserializationFailed s).status_code = 400)
    ∧ (∀ s, (ApiError.InvalidTransferOperations s).status_code = 400)
    ∧ ApiError.InvalidSignatureType.status_code = 400
    ∧ ApiError.InvalidMaxGasFees.status_code = 400
    ∧ ApiError.InvalidGasMultiplier.status_code = 400
    ∧ ApiError.InvalidOperations.status_code = 400
    ∧ ApiError.MissingPayloadMetadata.status_code = 400
    ∧ (∀ s, (ApiError.UnsupportedCurrency s).status_code = 400)
    ∧ (∀ s, (ApiError.UnsupportedSignatureCount s).status_code = 400)
    ∧ (∀ s, (ApiError.TransactionParseError s).status_code = 400)
    ∧ (∀ s, (ApiError.InternalError s).status_code = 400)
    ∧ (∀ s, (ApiError.InvalidInput s).status_code = 400)
    ∧ (∀ s, (ApiError.InvalidTransactionUpdate s).status_code = 400)
    ∧ (∀ s, (ApiError.SequenceNumberTooOld s).status_code = 400)
    ∧ (∀ s, (ApiError.VmError s).status_code = 400) :=
  ⟨fun _ => rfl, fun _ => rfl, fun _ => rfl, fun _ => rfl, fun _ => rfl, fun _ => rfl,
   fun _ => rfl, fun _ => rfl, fun _ => rfl, fun _ => rfl, fun _ => rfl, rfl, rfl, rfl,
   rfl, rfl, fun _ => rfl, fun _ => rfl, rfl, rfl, rfl, rfl, rfl, fun _ => rfl,
   fun _ => rfl, fun _ => rfl, fun _ => rfl, fun _ => rfl, fun _ => rfl, fun _ => rfl,
   fun _ => rfl⟩

/-- C8 (counterexample): the protocol-local low range 0–14 is used by
fifteen kinds of the total enumeration, not sixteen: the kinds from
`BlockParameterConflict` through `TransactionParseError` number fifteen
(`InternalError` already carries the remote code 600). -/
theorem code_low_range_has_fifteen_kinds :
    (ApiError.all.filter (fun e => e.code ≤ 14)).length = 15 ∧ (15 : Nat) ≠ 16 := by
  constructor
  · decide
  · decide

/-- C8 (amended): `code` is injective over the total enumeration `all()`;
the fifteen protocol-local kinds `BlockParameterConflict` through
`TransactionParseError` use the low integers 0–14, every other kind
(`InternalError` and the REST-API kinds) reuses the remote node's code
number in 100–603 verbatim, equal to the same-named `AptosErrorCode`
value (up to the renamings the conversion itself performs). -/
theorem code_injective_and_ranges :
    (ApiError.all.map ApiError.code).Nodup
    ∧ ApiError.all.map ApiError.code
      = [0, 1, 2, 3, 4, 5, 6, 7, 8, 9, 10, 11, 12, 13, 14, 600,
         101, 102, 103, 104, 105, 106, 107, 108, 200, 201, 300, 401, 402, 403, 501]
    ∧ (ApiError.all.all fun e => e.code ≤ 14 || (100 ≤ e.code && e.code ≤ 603)) = true
    ∧ (∀ s, (ApiError.InternalError s).code = AptosErrorCode.InternalError.as_u32)
    ∧ (∀ s, (ApiError.AccountNotFound s).code = AptosErrorCode.AccountNotFound.as_u32)
    ∧ (∀ s, (ApiError.ResourceNotFound s).code = AptosErrorCode.ResourceNotFound.as_u32)
    ∧ (∀ s, (ApiError.ModuleNotFound s).code = AptosErrorCode.ModuleNotFound.as_u32)
    ∧ (∀ s, (ApiError.StructFieldNotFound s).code = AptosErrorCode.StructFieldNotFound.as_u32)
    ∧ (∀ s, (ApiError.VersionNotFound s).code = AptosErrorCode.VersionNotFound.as_u32)
    ∧ (∀ s, (ApiError.TransactionNotFound s).code = AptosErrorCode.TransactionNotFound.as_u32)
    ∧ (∀ s, (ApiError.TableItemNotFound s).code = AptosErrorCode.TableItemNotFound.as_u32)
    ∧ (∀ s, (ApiError.BlockNotFound s).code = AptosErrorCode.BlockNotFound.as_u32)
    ∧ (∀ s, (ApiError.VersionPruned s).code = AptosErrorCode.VersionPruned.as_u32)
    ∧ (∀ s, (ApiError.BlockPruned s).code = AptosErrorCode.BlockPruned.as_u32)
    ∧ (∀ s, (ApiError.InvalidInput s).code = AptosErrorCode.InvalidInput.as_u32)
    ∧ (∀ s, (ApiError.InvalidTransactionUpdate s).code
        = AptosErrorCode.InvalidTransactionUpdate.as_u32)
    ∧ (∀ s, (ApiError.SequenceNumberTooOld s).code = AptosErrorCode.SequenceNumberTooOld.as_u32)
    ∧ (∀ s, (ApiError.VmError s).code = AptosErrorCode.VmError.as_u32)
    ∧ (∀ s, (ApiError.MempoolIsFull s).code = AptosErrorCode.MempoolIsFull.as_u32) :=
  ⟨by decide, by decide, by decide, fun _ => rfl, fun _ => rfl, fun _ => rfl, fun _ => rfl,
   fun _ => rfl, fun _ => rfl, fun _ => rfl, fun _ => rfl, fun _ => rfl, fun _ => rfl,
   fun _ => rfl, fun _ => rfl, fun _ => rfl, fun _ => rfl, fun _ => rfl, fun _ => rfl⟩

/-- C9 (counterexample): a carried detail payload does not override the
default text: `InternalError (some "boom")` still has message
`"Internal error"`, both in `message()` and in the externally visible
error's message field. -/
theorem message_not_overridden_counterexample :
    (ApiError.InternalError (some "boom")).message = "Internal error"
    ∧ (Error.fromApiError (ApiError.InternalError (some "boom"))).message = "Internal error"
    ∧ (ApiError.InternalError (some "boom")).message ≠ "boom" :=
  ⟨rfl, rfl, by decide⟩

/-- C9 (amended): `message()` returns the fixed default text of the kind,
depending only on the kind and never on the detail payload; the external
error's message field equals that default text, and the detail payload is
carried separately in the external error's details field. -/
theorem message_default_and_details_carried (e : ApiError) :
    e.message = e.stripDetail.message
    ∧ (Error.fromApiError e).message = e.message
    ∧ (Error.fromApiError e).details = e.details := by
  refine ⟨?_, rfl, rfl⟩
  cases e <;> rfl

/-- Helper: the signing loop panics as soon as some payload in the list has
no account, an account without a key, or message bytes differing from the
derived signing message. -/
theorem signTransactionLoop_offending_panics
    (keys : AccountAddress → Option Ed25519PrivateKey)
    (sign : Ed25519PrivateKey → RawTransaction → String)
    (pubKeyOf : Ed25519PrivateKey → PublicKey)
    (unsigned_txn : RawTransaction) (signing_message : String)
    (ps : List SigningPayload)
    (h : ∃ p ∈ ps, offendingPayload keys signing_message p) :
    ∃ m, signTransactionLoop keys sign pubKeyOf unsigned_txn signing_message ps
      = Outcome.panic m := by
  induction ps with
  | nil => simp at h
  | cons q rest ih =>
    obtain ⟨p, hp, hoff⟩ := h
    rcases List.mem_cons.mp hp with hq | hmem
    · subst hq
      rcases hoff with hnone | ⟨a, ha, hk⟩ | hne
      · exact ⟨"Must have an account", by simp [signTransactionLoop, hnone]⟩
      · exact ⟨"Should have a private key", by simp [signTransactionLoop, ha, hk]⟩
      · cases hacct : p.account_identifier with
        | none => exact ⟨"Must have an account", by simp [signTransactionLoop, hacct]⟩
        | some a =>
          cases hk : keys a.account_address with
          | none => exact ⟨"Should have a private key", by simp [signTransactionLoop, hacct, hk]⟩
          | some k =>
            exact ⟨"assertion failed: signing_message == payload.hex_bytes", by
              simp only [signTransactionLoop, hacct, hk]
              rw [if_neg (fun hsm => hne hsm.symm)]⟩
    · obtain ⟨m, hm⟩ := ih ⟨p, hmem, hoff⟩
      cases hacct : q.account_identifier with
      | none => exact ⟨"Must have an account", by simp [signTransactionLoop, hacct]⟩
      | some a =>
        cases hk : keys a.account_address with
        | none => exact ⟨"Should have a private key", by simp [signTransactionLoop, hacct, hk]⟩
        | some k =>
          by_cases hsm : signing_message = q.hex_bytes
          · exact ⟨m, by
              simp only [signTransactionLoop, hacct, hk]
              rw [if_pos hsm, hm]⟩
          · exact ⟨"assertion failed: signing_message == payload.hex_bytes", by
              simp only [signTransactionLoop, hacct, hk]
              rw [if_neg hsm]⟩

/-- C1: if the hex-derived signing message of the BCS-decoded unsigned
transaction blob differs from some payload's carried `hex_bytes`, the
submission fails — the run panics for every combine and parse oracle, so no
signed transaction is produced, no signature escapes the function, and the
combine and submit endpoints are never consulted. -/
theorem sign_transaction_message_mismatch_fails
    (bcsDecode : List Nat → Except String RawTransaction)
    (signingMessageOf : RawTransaction → List Nat)
    (sign : Ed25519PrivateKey → RawTransaction → String)
    (pubKeyOf : Ed25519PrivateKey → PublicKey)
    (combineCall : ConstructionCombineRequest → Except String ConstructionCombineResponse)
    (parseCall : ConstructionParseRequest → Except String ConstructionParseResponse)
    (network_identifier : NetworkIdentifier)
    (keys : AccountAddress → Option Ed25519PrivateKey)
    (u : ConstructionPayloadsResponse)
    (operations : List Operation)
    (bs : List Nat) (txn : RawTransaction) (p : SigningPayload)
    (h1 : hexDecode u.unsigned_transaction = Except.ok bs)
    (h2 : bcsDecode bs = Except.ok txn)
    (hp : p ∈ u.payloads)
    (hne : p.hex_bytes ≠ hexEncode (signingMessageOf txn)) :
    ∃ m, sign_transaction bcsDecode signingMessageOf sign pubKeyOf combineCall parseCall
        network_identifier keys u operations = Outcome.panic m := by
  obtain ⟨m, hm⟩ := signTransactionLoop_offending_panics keys sign pubKeyOf txn
    (hexEncode (signingMessageOf txn)) u.payloads ⟨p, hp, Or.inr (Or.inr hne)⟩
  exact ⟨m, by simp [sign_transaction, h1, h2, hm]⟩

/-- C1 (witness): a concrete run with one payload whose `hex_bytes` is
`"zz"` while the derived signing message is `""` panics. -/
theorem sign_transaction_message_mismatch_fails_witness :
    ∃ m, sign_transaction (fun _ => Except.ok ([] : RawTransaction))
        (fun _ => ([] : List Nat)) (fun _ _ => "sg") (fun k => k)
        (fun _ => Except.ok { signed_transaction := "ff" })
        (fun _ => Except.ok { operations := [], account_identifier_signers := some [] })
        "net" (fun _ => some 7)
        { unsigned_transaction := ""
          payloads := [{ account_identifier := some { address := "a", sub_account := none }
                         hex_bytes := "zz" }] }
        [] = Outcome.panic m :=
  sign_transaction_message_mismatch_fails _ _ _ _ _ _ _ _ _ _
    [] [] { account_identifier := some { address := "a", sub_account := none }, hex_bytes := "zz" }
    rfl rfl (List.mem_singleton.mpr rfl) (by decide)

/-- C10: if some signing payload has no `account_identifier`, or its
account's address is absent from the caller-supplied key map, or its
`hex_bytes` differ from the derived signing message, `sign_transaction`
panics (`.expect` / `assert_eq!`): the outcome is `Outcome.panic`, never an
error value, whatever the combine and parse oracles answer. -/
theorem sign_transaction_partiality_panics
    (bcsDecode : List Nat → Except String RawTransaction)
    (signingMessageOf : RawTransaction → List Nat)
    (sign : Ed25519PrivateKey → RawTransaction → String)
    (pubKeyOf : Ed25519PrivateKey → PublicKey)
    (combineCall : ConstructionCombineRequest → Except String ConstructionCombineResponse)
    (parseCall : ConstructionParseRequest → Except String ConstructionParseResponse)
    (network_identifier : NetworkIdentifier)
    (keys : AccountAddress → Option Ed25519PrivateKey)
    (u : ConstructionPayloadsResponse)
    (operations : List Operation)
    (bs : List Nat) (txn : RawTransaction) (p : SigningPayload)
    (h1 : hexDecode u.unsigned_transaction = Except.ok bs)
    (h2 : bcsDecode bs = Except.ok txn)
    (hp : p ∈ u.payloads)
    (hoff : p.account_identifier = none
      ∨ (∃ a, p.account_identifier = some a ∧ keys a.account_address = none)
      ∨ p.hex_bytes ≠ hexEncode (signingMessageOf txn)) :
    ∃ m, sign_transaction bcsDecode signingMessageOf sign pubKeyOf combineCall parseCall
        network_identifier keys u operations = Outcome.panic m := by
  obtain ⟨m, hm⟩ := signTransactionLoop_offending_panics keys sign pubKeyOf txn
    (hexEncode (signingMessageOf txn)) u.payloads ⟨p, hp, hoff⟩
  exact ⟨m, by simp [sign_transaction, h1, h2, hm]⟩

/-- C10 (witness): a concrete run whose single payload names an account
with no key in the map panics. -/
theorem sign_transaction_partiality_panics_witness :
    ∃ m, sign_transaction (fun _ => Except.ok ([] : RawTransaction))
        (fun _ => ([] : List Nat)) (fun _ _ => "sg") (fun k => k)
        (fun _ => Except.ok { signed_transaction := "ff" })
        (fun _ => Except.ok { operations := [], account_identifier_signers := some [] })
        "net" (fun _ => none)
        { unsigned_transaction := ""
          payloads := [{ account_identifier := some { address := "a", sub_account := none }
                         hex_bytes := "" }] }
        [] = Outcome.panic m :=
  sign_transaction_partiality_panics _ _ _ _ _ _ _ _ _ _
    [] [] { account_identifier := some { address := "a", sub_account := none }, hex_bytes := "" }
    rfl rfl (List.mem_singleton.mpr rfl)
    (Or.inr (Or.inl ⟨{ address := "a", sub_account := none }, rfl, rfl⟩))

/-- C2: `unsigned_transaction` re-parses the unsigned blob with
`signed := false` and returns the payloads exactly when the parsed response
carries no signer list and its operation list is structurally equal to the
input operations; on either mismatch it returns an error, for every
operation list. -/
theorem unsigned_transaction_round_trip_checks
    (payloadsCall : ConstructionPayloadsRequest → Except String ConstructionPayloadsResponse)
    (parseCall : ConstructionParseRequest → Except String ConstructionParseResponse)
    (network_identifier : NetworkIdentifier)
    (operations : List Operation)
    (metadata : ConstructionMetadata)
    (public_keys : List PublicKey)
    (pl : ConstructionPayloadsResponse)
    (resp : ConstructionParseResponse)
    (hpl : payloadsCall
        { network_identifier
          operations
          metadata := some metadata
          public_keys := some public_keys } = Except.ok pl)
    (hresp : parseCall
        { network_identifier
          signed := false
          transaction := pl.unsigned_transaction } = Except.ok resp) :
    (unsigned_transaction payloadsCall parseCall network_identifier operations metadata public_keys
        = Except.ok pl
      ↔ resp.account_identifier_signers = none ∧ resp.operations = operations)
    ∧ (resp.account_identifier_signers ≠ none ∨ resp.operations ≠ operations →
        ∃ m, unsigned_transaction payloadsCall parseCall network_identifier operations metadata
          public_keys = Except.error m) := by
  cases hs : resp.account_identifier_signers with
  | some v =>
    have hrun : unsigned_transaction payloadsCall parseCall network_identifier operations
        metadata public_keys = Except.error "Signers were in the unsigned transaction!" := by
      simp [unsigned_transaction, hpl, hresp, hs]
    rw [hrun]
    exact ⟨Iff.intro (fun h => Except.noConfusion h) (fun hc => Option.noConfusion hc.1),
           fun _ => ⟨_, rfl⟩⟩
  | none =>
    by_cases hops : operations = resp.operations
    · have hrun : unsigned_transaction payloadsCall parseCall network_identifier operations
          metadata public_keys = Except.ok pl := by
        simp [unsigned_transaction, hpl, hresp, hs, hops.symm]
      rw [hrun]
      refine ⟨Iff.intro (fun _ => ⟨rfl, hops.symm⟩) (fun _ => rfl), fun hc => ?_⟩
      rcases hc with h | h
      · exact (h rfl).elim
      · exact (h hops.symm).elim
    · have hrun : unsigned_transaction payloadsCall parseCall network_identifier operations
          metadata public_keys
          = Except.error "Operations were not parsed to be the same as input!" := by
        simp [unsigned_transaction, hpl, hresp, hs, hops]
      rw [hrun]
      exact ⟨Iff.intro (fun h => Except.noConfusion h) (fun hc => (hops hc.2.symm).elim),
             fun _ => ⟨_, rfl⟩⟩

/-- C2 (witness): a concrete run whose parse oracle returns no signers and
the same (empty) operation list is accepted. -/
theorem unsigned_transaction_round_trip_checks_witness :
    unsigned_transaction (fun _ => Except.ok { unsigned_transaction := "", payloads := [] })
      (fun _ => Except.ok { operations := [], account_identifier_signers := none })
      "net" [] "md" []
      = Except.ok { unsigned_transaction := "", payloads := [] } :=
  (unsigned_transaction_round_trip_checks
      (fun _ => Except.ok { unsigned_transaction := "", payloads := [] })
      (fun _ => Except.ok { operations := [], account_identifier_signers := none })
      "net" [] "md" []
      { unsigned_transaction := "", payloads := [] }
      { operations := [], account_identifier_signers := none }
      rfl rfl).1.mpr ⟨rfl, rfl⟩

/-- C3 (counterexample): the signed transaction can be returned although the
parsed signer list is empty: with no signing payloads, a combine oracle
answering `"ff"` and a parse oracle answering signer list `some []`, the
run succeeds — so "non-empty" is not enforced, only equality with the
locally recorded (here empty) signer list. -/
theorem sign_transaction_empty_signers_counterexample :
    sign_transaction (fun _ => Except.ok ([] : RawTransaction)) (fun _ => ([] : List Nat))
      (fun _ _ => "sg") (fun k => k)
      (fun _ => Except.ok { signed_transaction := "ff" })
      (fun _ => Except.ok { operations := [], account_identifier_signers := some [] })
      "net" (fun _ => none)
      { unsigned_transaction := "", payloads := [] } []
      = Outcome.ok "ff" := by
  rfl

/-- C3 (amended): after combine, the signed blob is re-parsed with
`signed := true`; the signed transaction is returned exactly when the
parsed signer list is present and equal as an ordered sequence to the
locally recorded signer list (in payload order) and the parsed operation
list equals the original one; an absent signer list, a signer-sequence
mismatch, or an operation-list mismatch each abort with an error.
(The source does not separately require the signer list to be non-empty.) -/
theorem sign_transaction_signed_parse_checks
    (bcsDecode : List Nat → Except String RawTransaction)
    (signingMessageOf : RawTransaction → List Nat)
    (sign : Ed25519PrivateKey → RawTransaction → String)
    (pubKeyOf : Ed25519PrivateKey → PublicKey)
    (combineCall : ConstructionCombineRequest → Except String ConstructionCombineResponse)
    (parseCall : ConstructionParseRequest → Except String ConstructionParseResponse)
    (network_identifier : NetworkIdentifier)
    (keys : AccountAddress → Option Ed25519PrivateKey)
    (u : ConstructionPayloadsResponse)
    (operations : List Operation)
    (bs : List Nat) (txn : RawTransaction)
    (sigs : List Signature) (sgns : List AccountIdentifier)
    (cresp : ConstructionCombineResponse) (presp : ConstructionParseResponse)
    (h1 : hexDecode u.unsigned_transaction = Except.ok bs)
    (h2 : bcsDecode bs = Except.ok txn)
    (h3 : signTransactionLoop keys sign pubKeyOf txn (hexEncode (signingMessageOf txn)) u.payloads
      = Outcome.ok (sigs, sgns))
    (h4 : combineCall
        { network_identifier
          unsigned_transaction := u.unsigned_transaction
          signatures := sigs } = Except.ok cresp)
    (h5 : parseCall
        { network_identifier
          signed := true
          transaction := cresp.signed_transaction } = Except.ok presp) :
    (∀ s, sign_transaction bcsDecode signingMessageOf sign pubKeyOf combineCall parseCall
        network_identifier keys u operations = Outcome.ok s →
      s = cresp.signed_transaction ∧ presp.account_identifier_signers = some sgns
        ∧ presp.operations = operations)
    ∧ (presp.account_identifier_signers = some sgns ∧ presp.operations = operations →
        sign_transaction bcsDecode signingMessageOf sign pubKeyOf combineCall parseCall
          network_identifier keys u operations = Outcome.ok cresp.signed_transaction)
    ∧ (presp.account_identifier_signers = none →
        ∃ m, sign_transaction bcsDecode signingMessageOf sign pubKeyOf combineCall parseCall
          network_identifier keys u operations = Outcome.err m)
    ∧ (∀ ps, presp.account_identifier_signers = some ps → ps ≠ sgns →
        ∃ m, sign_transaction bcsDecode signingMessageOf sign pubKeyOf combineCall parseCall
          network_identifier keys u operations = Outcome.err m)
    ∧ (presp.operations ≠ operations →
        ∃ m, sign_transaction bcsDecode signingMessageOf sign pubKeyOf combineCall parseCall
          network_identifier keys u operations = Outcome.err m) := by
  cases hs : presp.account_identifier_signers with
  | none =>
    have hrun : sign_transaction bcsDecode signingMessageOf sign pubKeyOf combineCall parseCall
        network_identifier keys u operations
        = Outcome.err "Signers were in the unsigned transaction!" := by
      simp [sign_transaction, h1, h2, h3, h4, h5, hs]
    rw [hrun]
    exact ⟨fun s h => Outcome.noConfusion h,
           fun hc => Option.noConfusion hc.1,
           fun _ => ⟨_, rfl⟩,
           fun ps hps => Option.noConfusion hps,
           fun _ => ⟨_, rfl⟩⟩
  | some ps0 =>
    by_cases heq : sgns = ps0
    · subst heq
      by_cases hops : operations = presp.operations
      · have hrun : sign_transaction bcsDecode signingMessageOf sign pubKeyOf combineCall
            parseCall network_identifier keys u operations
            = Outcome.ok cresp.signed_transaction := by
          simp [sign_transaction, h1, h2, h3, h4, h5, hs, hops]
        rw [hrun]
        exact ⟨fun s h => ⟨(Outcome.ok.inj h).symm, rfl, hops.symm⟩,
               fun _ => rfl,
               fun h => Option.noConfusion h,
               fun ps hps hne => (hne (Option.some.inj hps).symm).elim,
               fun h => (h hops.symm).elim⟩
      · have hrun : sign_transaction bcsDecode signingMessageOf sign pubKeyOf combineCall
            parseCall network_identifier keys u operations
            = Outcome.err "Operations were not parsed to be the same as input!" := by
          simp [sign_transaction, h1, h2, h3, h4, h5, hs, hops]
        rw [hrun]
        exact ⟨fun s h => Outcome.noConfusion h,
               fun hc => (hops hc.2.symm).elim,
               fun h => Option.noConfusion h,
               fun ps hps hne => ⟨_, rfl⟩,
               fun _ => ⟨_, rfl⟩⟩
    · have hrun : sign_transaction bcsDecode signingMessageOf sign pubKeyOf combineCall
          parseCall network_identifier keys u operations
          = Outcome.err "Signers don\x27t match" := by
        simp [sign_transaction, h1, h2, h3, h4, h5, hs, heq]
      rw [hrun]
      exact ⟨fun s h => Outcome.noConfusion h,
             fun hc => (heq (Option.some.inj hc.1).symm).elim,
             fun h => Option.noConfusion h,
             fun ps hps hne => ⟨_, rfl⟩,
             fun _ => ⟨_, rfl⟩⟩

/-- C3 (witness): a concrete run with one payload, matching signer answer
and matching operations is accepted end to end. -/
theorem sign_transaction_signed_parse_checks_witness :
    sign_transaction (fun _ => Except.ok ([] : RawTransaction)) (fun _ => ([] : List Nat))
      (fun _ _ => "sg") (fun k => k)
      (fun _ => Except.ok { signed_transaction := "ff" })
      (fun _ => Except.ok
        { operations := []
          account_identifier_signers := some [{ address := "a", sub_account := none }] })
      "net" (fun a => if a = "a" then some 7 else none)
      { unsigned_transaction := ""
        payloads := [{ account_identifier := some { address := "a", sub_account := none }
                       hex_bytes := "" }] }
      [] = Outcome.ok "ff" :=
  (sign_transaction_signed_parse_checks
      (fun _ => Except.ok ([] : RawTransaction)) (fun _ => ([] : List Nat))
      (fun _ _ => "sg") (fun k => k)
      (fun _ => Except.ok { signed_transaction := "ff" })
      (fun _ => Except.ok
        { operations := []
          account_identifier_signers := some [{ address := "a", sub_account := none }] })
      "net" (fun a => if a = "a" then some 7 else none)
      { unsigned_transaction := ""
        payloads := [{ account_identifier := some { address := "a", sub_account := none }
                       hex_bytes := "" }] }
      [] [] []
      [{ signing_payload := { account_identifier := some { address := "a", sub_account := none }
                              hex_bytes := "" }
         public_key := 7
         signature_type := SignatureType.Ed25519
         hex_bytes := "sg" }]
      [{ address := "a", sub_account := none }]
      { signed_transaction := "ff" }
      { operations := []
        account_identifier_signers := some [{ address := "a", sub_account := none }] }
      rfl rfl (by decide) rfl rfl).2.1 ⟨rfl, rfl⟩

/-- Helper: the key-resolution loop of `metadata_for_ops` fails when some
required account has no key in the caller-supplied map. -/
theorem resolveRequiredKeys_missing_key
    (keys : AccountAddress → Option Ed25519PrivateKey)
    (pubKeyOf : Ed25519PrivateKey → PublicKey)
    (accounts : List AccountIdentifier)
    (h : ∃ a ∈ accounts, keys a.account_address = none) :
    resolveRequiredKeys keys pubKeyOf accounts
      = Except.error "No public key found for account" := by
  induction accounts with
  | nil => simp at h
  | cons b rest ih =>
    obtain ⟨a, ha, hk⟩ := h
    rcases List.mem_cons.mp ha with hb | hmem
    · subst hb
      simp [resolveRequiredKeys, hk]
    · cases hkb : keys b.account_address with
      | none => simp [resolveRequiredKeys, hkb]
      | some k => simp [resolveRequiredKeys, hkb, Except.map, ih ⟨a, hmem, hk⟩]

/-- C4 (counterexample): a preprocess response whose required-public-keys
list is empty (`some []`) does not fail: the key-resolution loop runs zero
times and the metadata endpoint is called, here successfully, with an empty
public-key list. -/
theorem metadata_for_ops_empty_keys_counterexample :
    metadata_for_ops
      (fun _ => Except.ok { options := some "opts", required_public_keys := some [] })
      (fun _ => Except.ok { metadata := "md" })
      (fun k => k) "net" [] 10000 1 0 none (fun _ => none)
      = Except.ok ({ metadata := "md" }, []) := by
  rfl

/-- C4 (amended): an absent (`none`) required-public-keys list fails the
submission before any call to the metadata endpoint (the result does not
depend on the metadata oracle); likewise a required account with no
matching key fails before the metadata call, and an absent options field
fails without calling metadata.  An empty required-public-keys list,
however, does not fail (see the counterexample). -/
theorem metadata_for_ops_failfast
    (preprocessCall : ConstructionPreprocessRequest → Except String ConstructionPreprocessResponse)
    (pubKeyOf : Ed25519PrivateKey → PublicKey)
    (network_identifier : NetworkIdentifier)
    (operations : List Operation)
    (max_fee : Nat)
    (fee_multiplier : Nat)
    (expiry_time_secs : Nat)
    (sequence_number : Option Nat)
    (keys : AccountAddress → Option Ed25519PrivateKey)
    (pre : ConstructionPreprocessResponse)
    (hpre : preprocessCall
        { network_identifier
          operations
          max_fee := some [val_to_amount max_fee false]
          suggested_fee_multiplier := some fee_multiplier
          metadata := some { expiry_time_secs := some expiry_time_secs, sequence_number } }
      = Except.ok pre) :
    (pre.required_public_keys = none →
      ∀ metadataCall, metadata_for_ops preprocessCall metadataCall pubKeyOf network_identifier
          operations max_fee fee_multiplier expiry_time_secs sequence_number keys
        = Except.error "No public keys found required for transaction")
    ∧ (∀ accounts, pre.required_public_keys = some accounts →
        (∃ a ∈ accounts, keys a.account_address = none) →
        ∀ metadataCall, metadata_for_ops preprocessCall metadataCall pubKeyOf network_identifier
            operations max_fee fee_multiplier expiry_time_secs sequence_number keys
          = Except.error "No public key found for account")
    ∧ (∀ accounts ks, pre.required_public_keys = some accounts →
        resolveRequiredKeys keys pubKeyOf accounts = Except.ok ks →
        pre.options = none →
        ∀ metadataCall, metadata_for_ops preprocessCall metadataCall pubKeyOf network_identifier
            operations max_fee fee_multiplier expiry_time_secs sequence_number keys
          = Except.error "No metadata options returned from preprocess response") := by
  refine ⟨fun hnone metadataCall => ?_, fun accounts hacc hmiss metadataCall => ?_,
          fun accounts ks hacc hks hopt metadataCall => ?_⟩
  · simp [metadata_for_ops, hpre, hnone]
  · simp [metadata_for_ops, hpre, hacc,
      resolveRequiredKeys_missing_key keys pubKeyOf accounts hmiss]
  · simp [metadata_for_ops, hpre, hacc, hks, hopt]

/-- C4 (witness): a concrete preprocess response with no required
public-key list fails with the missing-keys error even though the metadata
oracle would have answered. -/
theorem metadata_for_ops_failfast_witness :
    metadata_for_ops
      (fun _ => Except.ok { options := some "opts", required_public_keys := none })
      (fun _ => Except.ok { metadata := "md" })
      (fun k => k) "net" [] 10000 1 0 none (fun _ => none)
      = Except.error "No public keys found required for transaction" :=
  (metadata_for_ops_failfast
      (fun _ => Except.ok { options := some "opts", required_public_keys := none })
      (fun k => k) "net" [] 10000 1 0 none (fun _ => none)
      { options := some "opts", required_public_keys := none }
      rfl).1 rfl (fun _ => Except.ok { metadata := "md" })

end AptosRosetta
